import Mathlib

/-!
Shallow embedding of the domain logic of the flask-crm-system repository
(`app/models/deal.py`, `app/models/lead.py`, `app/models/contact.py`,
`app/models/task.py`, `app/models/activity.py`).

Modelling conventions:
- SQL strings become `String`; nullable columns become `Option`.
- `datetime`/`date` values become abstract `Nat` instants; every method that
  reads the clock (`datetime.utcnow()`) takes the current instant as an
  explicit `today`/`now` argument.
- Python `float` money values become `ℚ` (exact arithmetic).
- Python dicts returned by `to_dict` become records with one field per key;
  `isoformat` is modelled as an injective rendering of an instant to a string.
-/

/-- Model of `datetime.isoformat()`: an injective rendering of an instant. -/
def isoformat (t : Nat) : String := toString t

/-- The fixed `stage_probabilities` dict of `Deal.move_to_stage`
(`app/models/deal.py` lines 131-138), as a partial map; `none` models a key
missing from the dict. -/
def stage_probabilities (s : String) : Option Int :=
  if s = "prospecting" then some 10
  else if s = "qualified" then some 25
  else if s = "proposal" then some 50
  else if s = "negotiation" then some 75
  else if s = "closed_won" then some 100
  else if s = "closed_lost" then some 0
  else none

/-- The `Deal` model (`app/models/deal.py`): one field per column. -/
structure Deal where
  id : Nat
  title : String
  description : Option String
  value : ℚ
  currency : Option String
  stage : String
  probability : Int
  status : String
  contact_id : Nat
  owner_id : Nat
  expected_close_date : Option Nat
  actual_close_date : Option Nat
  source : Option String
  lost_reason : Option String
  products : Option String
  competitors : Option String
  notes : Option String
  created_at : Nat
  updated_at : Option Nat
deriving DecidableEq, Repr

/-- `Deal.move_to_stage` (`app/models/deal.py` lines 123-149): sets `stage`
to the argument, sets `probability` via `stage_probabilities.get(new_stage,
self.probability)`, and for the two closed stages also sets `status` and
`actual_close_date` (`today` models `datetime.utcnow().date()`). -/
def Deal.move_to_stage (d : Deal) (new_stage : String) (today : Nat) : Deal :=
  if new_stage = "closed_won" then
    { d with stage := new_stage,
             probability := (stage_probabilities new_stage).getD d.probability,
             status := "won",
             actual_close_date := some today }
  else if new_stage = "closed_lost" then
    { d with stage := new_stage,
             probability := (stage_probabilities new_stage).getD d.probability,
             status := "lost",
             actual_close_date := some today }
  else
    { d with stage := new_stage,
             probability := (stage_probabilities new_stage).getD d.probability }

/-- `Deal.mark_as_won` (`app/models/deal.py` lines 151-160); the Python
`close_date or datetime.utcnow().date()` becomes `close_date.getD today`. -/
def Deal.mark_as_won (d : Deal) (close_date : Option Nat) (today : Nat) : Deal :=
  { d with status := "won",
           stage := "closed_won",
           probability := 100,
           actual_close_date := some (close_date.getD today) }

/-- `Deal.mark_as_lost` (`app/models/deal.py` lines 162-173). -/
def Deal.mark_as_lost (d : Deal) (reason : Option String) (close_date : Option Nat)
    (today : Nat) : Deal :=
  { d with status := "lost",
           stage := "closed_lost",
           probability := 0,
           lost_reason := reason,
           actual_close_date := some (close_date.getD today) }

/-- `Deal.get_weighted_value` (`app/models/deal.py` lines 175-183):
`(self.value * self.probability) / 100`. -/
def Deal.get_weighted_value (d : Deal) : ℚ :=
  (d.value * (d.probability : ℚ)) / 100

/-- `Deal.is_overdue` (`app/models/deal.py` lines 185-193): `False` when
`expected_close_date` is `None` or `status != "open"`, else compares the
expected close date with today. -/
def Deal.is_overdue (d : Deal) (today : Nat) : Bool :=
  match d.expected_close_date with
  | none => false
  | some ecd => if d.status ≠ "open" then false else decide (ecd < today)

/-- The dict returned by `Deal.to_dict` (`app/models/deal.py` lines 195-220),
one field per key of the Python dict literal. -/
structure DealDict where
  id : Nat
  title : String
  description : Option String
  value : ℚ
  currency : Option String
  stage : String
  probability : Int
  status : String
  contact_id : Nat
  owner_id : Nat
  expected_close_date : Option String
  actual_close_date : Option String
  source : Option String
  lost_reason : Option String
  weighted_value : ℚ
  is_overdue : Bool
  created_at : String
  updated_at : Option String
deriving DecidableEq, Repr

/-- `Deal.to_dict` (`app/models/deal.py` lines 195-220); `is_overdue` reads
the clock, so `today` is explicit. -/
def Deal.to_dict (d : Deal) (today : Nat) : DealDict :=
  { id := d.id
    title := d.title
    description := d.description
    value := d.value
    currency := d.currency
    stage := d.stage
    probability := d.probability
    status := d.status
    contact_id := d.contact_id
    owner_id := d.owner_id
    expected_close_date := d.expected_close_date.map isoformat
    actual_close_date := d.actual_close_date.map isoformat
    source := d.source
    lost_reason := d.lost_reason
    weighted_value := d.get_weighted_value
    is_overdue := d.is_overdue today
    created_at := isoformat d.created_at
    updated_at := d.updated_at.map isoformat }

/-- The `Lead` model (`app/models/lead.py`): one field per column. -/
structure Lead where
  id : Nat
  first_name : String
  last_name : String
  email : String
  phone : Option String
  company : Option String
  job_title : Option String
  industry : Option String
  status : String
  source : Option String
  score : Int
  temperature : String
  owner_id : Nat
  budget : Option ℚ
  timeline : Option String
  requirements : Option String
  notes : Option String
  converted_to_contact_id : Option Nat
  converted_at : Option Nat
  city : Option String
  state : Option String
  country : Option String
  created_at : Nat
  updated_at : Option Nat
  last_contacted : Option Nat
  next_followup : Option Nat
deriving DecidableEq, Repr

/-- `Lead.full_name` (`app/models/lead.py` lines 124-131):
`f"{self.first_name} {self.last_name}"`. -/
def Lead.full_name (l : Lead) : String :=
  l.first_name ++ " " ++ l.last_name

/-- `Lead.update_score` (`app/models/lead.py` lines 133-149): clamps the new
score into `[0, 100]` via `max(0, min(100, score + points))`, then recomputes
`temperature` from the new score. -/
def Lead.update_score (l : Lead) (points : Int) : Lead :=
  let newScore := max 0 (min 100 (l.score + points))
  { l with score := newScore,
           temperature :=
             if newScore ≥ 70 then "hot"
             else if newScore ≥ 40 then "warm"
             else "cold" }

/-- `Lead.convert_to_contact` (`app/models/lead.py` lines 151-161); `now`
models `datetime.utcnow()`. -/
def Lead.convert_to_contact (l : Lead) (contact_id : Nat) (now : Nat) : Lead :=
  { l with status := "converted",
           converted_to_contact_id := some contact_id,
           converted_at := some now }

/-- `Lead.is_qualified` (`app/models/lead.py` lines 163-169). -/
def Lead.is_qualified (l : Lead) : Bool :=
  decide (l.score ≥ 50)

/-- The dict returned by `Lead.to_dict` (`app/models/lead.py` lines 171-197),
one field per key of the Python dict literal. -/
structure LeadDict where
  id : Nat
  first_name : String
  last_name : String
  full_name : String
  email : String
  phone : Option String
  company : Option String
  job_title : Option String
  industry : Option String
  status : String
  source : Option String
  score : Int
  temperature : String
  owner_id : Nat
  budget : Option ℚ
  timeline : Option String
  created_at : String
  updated_at : Option String
  next_followup : Option String
deriving DecidableEq, Repr

/-- `Lead.to_dict` (`app/models/lead.py` lines 171-197). -/
def Lead.to_dict (l : Lead) : LeadDict :=
  { id := l.id
    first_name := l.first_name
    last_name := l.last_name
    full_name := l.full_name
    email := l.email
    phone := l.phone
    company := l.company
    job_title := l.job_title
    industry := l.industry
    status := l.status
    source := l.source
    score := l.score
    temperature := l.temperature
    owner_id := l.owner_id
    budget := l.budget
    timeline := l.timeline
    created_at := isoformat l.created_at
    updated_at := l.updated_at.map isoformat
    next_followup := l.next_followup.map isoformat }

/-- The `Contact` model (`app/models/contact.py`): one field per column. -/
structure Contact where
  id : Nat
  first_name : String
  last_name : String
  email : String
  phone : Option String
  mobile : Option String
  company : Option String
  job_title : Option String
  status : String
  source : Option String
  owner_id : Nat
  address : Option String
  city : Option String
  state : Option String
  country : Option String
  postal_code : Option String
  website : Option String
  linkedin : Option String
  twitter : Option String
  tags : Option String
  notes : Option String
  created_at : Nat
  updated_at : Option Nat
  last_contacted : Option Nat
deriving DecidableEq, Repr

/-- `Contact.full_name` (`app/models/contact.py` lines 125-132). -/
def Contact.full_name (c : Contact) : String :=
  c.first_name ++ " " ++ c.last_name

/-- `Contact.full_address` (`app/models/contact.py` lines 134-143): joins the
truthy address parts with a comma and space (Python drops both `None` and empty strings). -/
def Contact.full_address (c : Contact) : String :=
  String.intercalate ", "
    (([c.address, c.city, c.state, c.country, c.postal_code].filterMap (fun p => p)).filter
      (fun p => p ≠ ""))

/-- `Contact.get_tags_list` (`app/models/contact.py` lines 145-153): empty
list when `tags` is `None` or empty (falsy), else split on commas and strip. -/
def Contact.get_tags_list (c : Contact) : List String :=
  match c.tags with
  | none => []
  | some t => if t = "" then [] else (t.splitOn ",").map String.trim

/-- The dict returned by `Contact.to_dict` (`app/models/contact.py` lines
166-193), one field per key of the Python dict literal. -/
structure ContactDict where
  id : Nat
  first_name : String
  last_name : String
  full_name : String
  email : String
  phone : Option String
  mobile : Option String
  company : Option String
  job_title : Option String
  status : String
  source : Option String
  owner_id : Nat
  address : String
  website : Option String
  linkedin : Option String
  twitter : Option String
  tags : List String
  created_at : String
  updated_at : Option String
  last_contacted : Option String
deriving DecidableEq, Repr

/-- `Contact.to_dict` (`app/models/contact.py` lines 166-193); note the
`address` key carries the joined `full_address`, and `tags` the parsed list. -/
def Contact.to_dict (c : Contact) : ContactDict :=
  { id := c.id
    first_name := c.first_name
    last_name := c.last_name
    full_name := c.full_name
    email := c.email
    phone := c.phone
    mobile := c.mobile
    company := c.company
    job_title := c.job_title
    status := c.status
    source := c.source
    owner_id := c.owner_id
    address := c.full_address
    website := c.website
    linkedin := c.linkedin
    twitter := c.twitter
    tags := c.get_tags_list
    created_at := isoformat c.created_at
    updated_at := c.updated_at.map isoformat
    last_contacted := c.last_contacted.map isoformat }

/-- The `Task` model (`app/models/task.py`): one field per column (named
`CrmTask` because `Task` already names a core Lean type). -/
structure CrmTask where
  id : Nat
  title : String
  description : Option String
  priority : String
  status : String
  due_date : Option Nat
  completed_at : Option Nat
  assigned_to : Nat
  created_by : Nat
  contact_id : Option Nat
  lead_id : Option Nat
  deal_id : Option Nat
  reminder_sent : Bool
  created_at : Nat
  updated_at : Option Nat
deriving DecidableEq, Repr

/-- `Task.mark_completed` (`app/models/task.py` lines 95-98). -/
def CrmTask.mark_completed (t : CrmTask) (now : Nat) : CrmTask :=
  { t with status := "completed", completed_at := some now }

/-- `Task.is_overdue` (`app/models/task.py` lines 100-108): `False` when
`status == "completed"` or `due_date` is `None`, else `due_date < now`. -/
def CrmTask.is_overdue (t : CrmTask) (now : Nat) : Bool :=
  if t.status = "completed" then false
  else
    match t.due_date with
    | none => false
    | some dd => decide (dd < now)

/-- `Task.get_priority_color` (`app/models/task.py` lines 110-122). -/
def CrmTask.get_priority_color (t : CrmTask) : String :=
  if t.priority = "low" then "success"
  else if t.priority = "medium" then "info"
  else if t.priority = "high" then "warning"
  else if t.priority = "urgent" then "danger"
  else "secondary"

/-- The dict returned by `Task.to_dict` (`app/models/task.py` lines 124-147),
one field per key of the Python dict literal. -/
structure TaskDict where
  id : Nat
  title : String
  description : Option String
  priority : String
  status : String
  due_date : Option String
  completed_at : Option String
  assigned_to : Nat
  created_by : Nat
  contact_id : Option Nat
  lead_id : Option Nat
  deal_id : Option Nat
  is_overdue : Bool
  priority_color : String
  created_at : String
  updated_at : Option String
deriving DecidableEq, Repr

/-- `Task.to_dict` (`app/models/task.py` lines 124-147). -/
def CrmTask.to_dict (t : CrmTask) (now : Nat) : TaskDict :=
  { id := t.id
    title := t.title
    description := t.description
    priority := t.priority
    status := t.status
    due_date := t.due_date.map isoformat
    completed_at := t.completed_at.map isoformat
    assigned_to := t.assigned_to
    created_by := t.created_by
    contact_id := t.contact_id
    lead_id := t.lead_id
    deal_id := t.deal_id
    is_overdue := t.is_overdue now
    priority_color := t.get_priority_color
    created_at := isoformat t.created_at
    updated_at := t.updated_at.map isoformat }

/-- The `Activity` model (`app/models/activity.py`): one field per column. -/
structure Activity where
  id : Nat
  activity_type : String
  subject : String
  description : Option String
  outcome : Option String
  duration : Option Int
  user_id : Nat
  contact_id : Option Nat
  lead_id : Option Nat
  deal_id : Option Nat
  scheduled_at : Option Nat
  completed_at : Option Nat
  is_completed : Bool
  created_at : Nat
  updated_at : Option Nat
deriving DecidableEq, Repr

/-- `Activity.mark_completed` (`app/models/activity.py` lines 79-88): the
`outcome` field is overwritten only when the argument is truthy. -/
def Activity.mark_completed (a : Activity) (outcome : Option String) (now : Nat) :
    Activity :=
  { a with is_completed := true,
           completed_at := some now,
           outcome :=
             match outcome with
             | some o => if o = "" then a.outcome else some o
             | none => a.outcome }

/-- `Activity.is_overdue` (`app/models/activity.py` lines 90-98): `False`
when `is_completed` or `scheduled_at` is `None`, else `scheduled_at < now`. -/
def Activity.is_overdue (a : Activity) (now : Nat) : Bool :=
  if a.is_completed then false
  else
    match a.scheduled_at with
    | none => false
    | some s => decide (s < now)

/-- Modelled from the spec: the data-model table of the spec says "probability and
status are derived from stage by a fixed table; closed_won⇒status=won,
probability=100; closed_lost⇒status=lost, probability=0" and lists
status∈\x7bopen,won,lost\x7d; the status the table derives for every
non-closed stage can therefore only be `open`. The code has no such
stage→status table, so this definition follows the words of the spec. -/
def specDerivedStatus (s : String) : String :=
  if s = "closed_won" then "won"
  else if s = "closed_lost" then "lost"
  else "open"

/-- Deal states reachable by `move_to_stage`, `mark_as_won` and
`mark_as_lost` from a freshly created deal, whose column defaults
(`app/models/deal.py` lines 52-64) are stage "prospecting",
probability 10, status "open". -/
inductive ReachableDeal : Deal → Prop where
  | init (d : Deal) (hstage : d.stage = "prospecting") (hprob : d.probability = 10)
      (hstatus : d.status = "open") : ReachableDeal d
  | move (d : Deal) (s : String) (today : Nat) (h : ReachableDeal d) :
      ReachableDeal (d.move_to_stage s today)
  | won (d : Deal) (close_date : Option Nat) (today : Nat) (h : ReachableDeal d) :
      ReachableDeal (d.mark_as_won close_date today)
  | lost (d : Deal) (reason : Option String) (close_date : Option Nat) (today : Nat)
      (h : ReachableDeal d) : ReachableDeal (d.mark_as_lost reason close_date today)

/-- The stage/probability/status relationship that actually holds on every
reachable deal: probability always matches the table entry for the current
stage when there is one, and the two closed stages force the corresponding
status and probability. -/
def DealInvariant (d : Deal) : Prop :=
  (∀ p, stage_probabilities d.stage = some p → d.probability = p) ∧
  (d.stage = "closed_won" → d.status = "won" ∧ d.probability = 100) ∧
  (d.stage = "closed_lost" → d.status = "lost" ∧ d.probability = 0)

/-- A freshly created deal with the column defaults of `app/models/deal.py`
(stage "prospecting", probability 10, status "open"). -/
def exDeal : Deal :=
  { id := 1, title := "Acme rollout", description := none, value := 100000,
    currency := some "INR", stage := "prospecting", probability := 10,
    status := "open", contact_id := 1, owner_id := 1,
    expected_close_date := none, actual_close_date := none, source := none,
    lost_reason := none, products := none, competitors := none, notes := none,
    created_at := 0, updated_at := none }

/-- A lead with the column defaults of `app/models/lead.py`
(status "new", score 0, temperature "cold"). -/
def exLead : Lead :=
  { id := 1, first_name := "Asha", last_name := "Rao", email := "asha@example.com",
    phone := none, company := none, job_title := none, industry := none,
    status := "new", source := none, score := 0, temperature := "cold",
    owner_id := 1, budget := none, timeline := none, requirements := none,
    notes := none, converted_to_contact_id := none, converted_at := none,
    city := none, state := none, country := some "India", created_at := 0,
    updated_at := none, last_contacted := none, next_followup := none }

/-- `exLead` with the stored `city` field set to one value. -/
def exLeadCityA : Lead := { exLead with city := some "Mumbai" }

/-- `exLead` with the stored `city` field set to a different value. -/
def exLeadCityB : Lead := { exLead with city := some "Pune" }

/-- A pending task with a due date. -/
def exTask : CrmTask :=
  { id := 1, title := "Call back", description := none, priority := "medium",
    status := "pending", due_date := some 5, completed_at := none,
    assigned_to := 1, created_by := 1, contact_id := none, lead_id := none,
    deal_id := none, reminder_sent := false, created_at := 0, updated_at := none }

/-- `exTask` without a due date. -/
def exTaskNoDue : CrmTask := { exTask with due_date := none }

/-- An uncompleted activity with no scheduled time. -/
def exActivity : Activity :=
  { id := 1, activity_type := "call", subject := "Intro call", description := none,
    outcome := none, duration := none, user_id := 1, contact_id := none,
    lead_id := none, deal_id := none, scheduled_at := none, completed_at := none,
    is_completed := false, created_at := 0, updated_at := none }

/-- Field shape of `Deal.move_to_stage`: the stage always becomes the
argument. -/
theorem move_stage_eq (d : Deal) (s : String) (today : Nat) :
    (d.move_to_stage s today).stage = s := by
  unfold Deal.move_to_stage
  split_ifs <;> rfl

/-- Field shape of `Deal.move_to_stage`: the probability always becomes the
table lookup with the old probability as default. -/
theorem move_prob_eq (d : Deal) (s : String) (today : Nat) :
    (d.move_to_stage s today).probability =
      (stage_probabilities s).getD d.probability := by
  unfold Deal.move_to_stage
  split_ifs <;> rfl

/-- Field shape of `Deal.move_to_stage`: status is rewritten only for the
two closed stages. -/
theorem move_status_eq (d : Deal) (s : String) (today : Nat) :
    (d.move_to_stage s today).status =
      if s = "closed_won" then "won"
      else if s = "closed_lost" then "lost"
      else d.status := by
  unfold Deal.move_to_stage
  split_ifs <;> rfl

/-- Field shape of `Deal.move_to_stage`: the actual close date is stamped
only for the two closed stages. -/
theorem move_close_date_eq (d : Deal) (s : String) (today : Nat) :
    (d.move_to_stage s today).actual_close_date =
      if s = "closed_won" then some today
      else if s = "closed_lost" then some today
      else d.actual_close_date := by
  unfold Deal.move_to_stage
  split_ifs <;> rfl

/-- Claim C1 counterexample: the deal state reached by marking a fresh deal
won and then moving it back to stage "prospecting" is reachable by the three
operations, yet its status is "won" while the fixed table of the spec derives
status "open" for stage "prospecting" — so status is not derived from the
current stage on all reachable states. -/
theorem deal_reopened_status_counterexample :
    ReachableDeal ((exDeal.mark_as_won none 5).move_to_stage "prospecting" 6) ∧
    ((exDeal.mark_as_won none 5).move_to_stage "prospecting" 6).stage =
      "prospecting" ∧
    ((exDeal.mark_as_won none 5).move_to_stage "prospecting" 6).status = "won" ∧
    specDerivedStatus "prospecting" = "open" ∧
    ((exDeal.mark_as_won none 5).move_to_stage "prospecting" 6).status ≠
      specDerivedStatus
        ((exDeal.mark_as_won none 5).move_to_stage "prospecting" 6).stage := by
  refine ⟨?_, by decide, by decide, by decide, by decide⟩
  exact ReachableDeal.move (exDeal.mark_as_won none 5) "prospecting" 6
    (ReachableDeal.won exDeal none 5 (ReachableDeal.init exDeal rfl rfl rfl))

/-- Claim C1 (amended): on every deal state reachable by `move_to_stage`,
`mark_as_won` and `mark_as_lost` from a fresh deal, the probability equals
the fixed-table value of the current stage whenever the stage is in the
table, stage "closed_won" forces status "won" and probability 100, and stage
"closed_lost" forces status "lost" and probability 0; but the status of a
non-closed stage is NOT derived from the stage (moving a closed deal back to
a non-terminal stage keeps status "won"/"lost"). -/
theorem deal_stage_probability_status_invariant (d : Deal)
    (h : ReachableDeal d) : DealInvariant d := by
  induction h with
  | init d hstage hprob hstatus =>
    refine ⟨?_, ?_, ?_⟩
    · intro p hp
      rw [hstage] at hp
      have h10 : stage_probabilities "prospecting" = some 10 := rfl
      rw [h10] at hp
      injection hp with hp
      rw [hprob]
      exact hp
    · intro hs
      rw [hstage] at hs
      exact absurd hs (by decide)
    · intro hs
      rw [hstage] at hs
      exact absurd hs (by decide)
  | move d s today h ih =>
    refine ⟨?_, ?_, ?_⟩
    · intro p hp
      rw [move_stage_eq] at hp
      rw [move_prob_eq, hp]
      rfl
    · intro hs
      rw [move_stage_eq] at hs
      subst hs
      refine ⟨?_, ?_⟩
      · rw [move_status_eq]
        rfl
      · rw [move_prob_eq]
        rfl
    · intro hs
      rw [move_stage_eq] at hs
      subst hs
      refine ⟨?_, ?_⟩
      · rw [move_status_eq]
        rfl
      · rw [move_prob_eq]
        rfl
  | won d close_date today h ih =>
    refine ⟨?_, ?_, ?_⟩
    · intro p hp
      have hs : (d.mark_as_won close_date today).stage = "closed_won" := rfl
      rw [hs] at hp
      have h100 : stage_probabilities "closed_won" = some 100 := rfl
      rw [h100] at hp
      injection hp
    · intro _
      exact ⟨rfl, rfl⟩
    · intro hs
      have hcontra : ("closed_won" : String) = "closed_lost" := hs
      exact absurd hcontra (by decide)
  | lost d reason close_date today h ih =>
    refine ⟨?_, ?_, ?_⟩
    · intro p hp
      have hs : (d.mark_as_lost reason close_date today).stage = "closed_lost" := rfl
      rw [hs] at hp
      have h0 : stage_probabilities "closed_lost" = some 0 := rfl
      rw [h0] at hp
      injection hp
    · intro hs
      have hcontra : ("closed_lost" : String) = "closed_won" := hs
      exact absurd hcontra (by decide)
    · intro _
      exact ⟨rfl, rfl⟩

/-- Claim C1 witness: the invariant instantiated on a concrete reachable
deal state. -/
theorem deal_stage_probability_status_invariant_witness :
    DealInvariant (exDeal.move_to_stage "qualified" 3) :=
  deal_stage_probability_status_invariant (exDeal.move_to_stage "qualified" 3)
    (ReachableDeal.move exDeal "qualified" 3
      (ReachableDeal.init exDeal rfl rfl rfl))

/-- Claim C2 counterexample: converting a concrete lead at instant 5 records
`converted_at = some 5`, but converting again at instant 9 overwrites it to
`some 9` — the timestamp recorded by the first call is NOT preserved. -/
theorem convert_to_contact_twice_counterexample :
    (exLead.convert_to_contact 1 5).converted_at = some 5 ∧
    ((exLead.convert_to_contact 1 5).convert_to_contact 2 9).converted_at =
      some 9 ∧
    ((exLead.convert_to_contact 1 5).convert_to_contact 2 9).converted_at ≠
      some 5 :=
  ⟨rfl, rfl, by decide⟩

/-- Claim C2 (amended): `convert_to_contact(c)` sets status "converted",
`converted_to_contact_id = c` and a non-null `converted_at`; a second call
overwrites `converted_at` with the time of the second call (the first
timestamp is not preserved). -/
theorem convert_to_contact_sets_fields (l : Lead) (c now : Nat) :
    (l.convert_to_contact c now).status = "converted" ∧
    (l.convert_to_contact c now).converted_to_contact_id = some c ∧
    (l.convert_to_contact c now).converted_at = some now ∧
    ∀ c2 now2,
      ((l.convert_to_contact c now).convert_to_contact c2 now2).converted_at =
        some now2 :=
  ⟨rfl, rfl, rfl, fun _ _ => rfl⟩

/-- Claim C3: for a stage name in the fixed table, `move_to_stage` sets the
probability to the table value; for a name outside the table it leaves the
probability unchanged. -/
theorem move_to_stage_probability_table (d : Deal) (s : String) (today : Nat) :
    (∀ p : Int, stage_probabilities s = some p →
      (d.move_to_stage s today).probability = p) ∧
    (stage_probabilities s = none →
      (d.move_to_stage s today).probability = d.probability) := by
  constructor
  · intro p hp
    rw [move_prob_eq, hp]
    rfl
  · intro hp
    rw [move_prob_eq, hp]
    rfl

/-- Claim C3 witness: the table case at stage "qualified" (value 25) and the
unknown-stage case at "discovery" on a concrete deal. -/
theorem move_to_stage_probability_table_witness :
    stage_probabilities "qualified" = some 25 ∧
    (exDeal.move_to_stage "qualified" 7).probability = 25 ∧
    stage_probabilities "discovery" = none ∧
    (exDeal.move_to_stage "discovery" 7).probability = exDeal.probability :=
  ⟨rfl, (move_to_stage_probability_table exDeal "qualified" 7).1 25 rfl,
   rfl, (move_to_stage_probability_table exDeal "discovery" 7).2 rfl⟩

/-- Claim C4: `update_score(p)` clamps the new score to `[0, 100]` via
`max 0 (min 100 (score + p))` and recomputes the temperature from the new
score with bands at 40 and 70 (at least 70 hot, 40 to 69 warm, below 40
cold). -/
theorem update_score_clamps_and_sets_temperature (l : Lead) (p : Int) :
    (l.update_score p).score = max 0 (min 100 (l.score + p)) ∧
    (70 ≤ (l.update_score p).score → (l.update_score p).temperature = "hot") ∧
    (40 ≤ (l.update_score p).score → (l.update_score p).score < 70 →
      (l.update_score p).temperature = "warm") ∧
    ((l.update_score p).score < 40 →
      (l.update_score p).temperature = "cold") := by
  have hscore : (l.update_score p).score = max 0 (min 100 (l.score + p)) := rfl
  have htemp : (l.update_score p).temperature =
      if max 0 (min 100 (l.score + p)) ≥ 70 then "hot"
      else if max 0 (min 100 (l.score + p)) ≥ 40 then "warm"
      else "cold" := rfl
  refine ⟨hscore, ?_, ?_, ?_⟩
  · intro h
    rw [hscore] at h
    rw [htemp, if_pos (by omega)]
  · intro h1 h2
    rw [hscore] at h1 h2
    rw [htemp, if_neg (by omega), if_pos (by omega)]
  · intro h
    rw [hscore] at h
    rw [htemp, if_neg (by omega), if_neg (by omega)]

/-- Claim C4 witness: the boundary scores 39, 40, 69 and 70 reached from
concrete leads give cold, warm, warm and hot. -/
theorem update_score_clamps_and_sets_temperature_witness :
    (exLead.update_score 39).score = 39 ∧
    (exLead.update_score 39).temperature = "cold" ∧
    (exLead.update_score 40).temperature = "warm" ∧
    (exLead.update_score 69).temperature = "warm" ∧
    (exLead.update_score 70).temperature = "hot" :=
  ⟨(update_score_clamps_and_sets_temperature exLead 39).1,
   (update_score_clamps_and_sets_temperature exLead 39).2.2.2 (by decide),
   (update_score_clamps_and_sets_temperature exLead 40).2.2.1 (by decide)
     (by decide),
   (update_score_clamps_and_sets_temperature exLead 69).2.2.1 (by decide)
     (by decide),
   (update_score_clamps_and_sets_temperature exLead 70).2.1 (by decide)⟩

/-- Claim C5: moving any deal to "closed_won" yields status "won" and stamps
the actual close date with today; moving to "closed_lost" yields status
"lost" and stamps the actual close date with today. -/
theorem move_to_closed_stamps_status_and_date (d : Deal) (today : Nat) :
    ((d.move_to_stage "closed_won" today).status = "won" ∧
     (d.move_to_stage "closed_won" today).actual_close_date = some today) ∧
    ((d.move_to_stage "closed_lost" today).status = "lost" ∧
     (d.move_to_stage "closed_lost" today).actual_close_date = some today) :=
  ⟨⟨rfl, rfl⟩, ⟨rfl, rfl⟩⟩

/-- Claim C6: for every deal with non-negative value and probability in
`[0, 100]`, `get_weighted_value` returns exactly
`value * probability / 100`. -/
theorem get_weighted_value_formula (d : Deal) (hv : 0 ≤ d.value)
    (h0 : 0 ≤ d.probability) (h1 : d.probability ≤ 100) :
    d.get_weighted_value = d.value * (d.probability : ℚ) / 100 :=
  rfl

/-- Claim C6 witness: a deal of value 100000 at probability 10 has weighted
value 10000. -/
theorem get_weighted_value_formula_witness :
    (0 : ℚ) ≤ exDeal.value ∧ (0 : Int) ≤ exDeal.probability ∧
    exDeal.probability ≤ 100 ∧
    exDeal.get_weighted_value = exDeal.value * (exDeal.probability : ℚ) / 100 ∧
    exDeal.get_weighted_value = 10000 :=
  ⟨by norm_num [exDeal], by decide, by decide,
   get_weighted_value_formula exDeal (by norm_num [exDeal]) (by decide)
     (by decide),
   by norm_num [exDeal, Deal.get_weighted_value]⟩

/-- Claim C7: a task whose due date is strictly before the current time and
whose status is "pending" is overdue; after `mark_completed`, `is_overdue`
is false whatever the due date and whatever instant it is asked at. -/
theorem task_overdue_pending_and_completed :
    (∀ (t : CrmTask) (now dd : Nat), t.due_date = some dd → dd < now →
      t.status = "pending" → t.is_overdue now = true) ∧
    (∀ (t : CrmTask) (now now2 : Nat),
      (t.mark_completed now).is_overdue now2 = false) := by
  constructor
  · intro t now dd hdd hlt hstatus
    unfold CrmTask.is_overdue
    rw [hstatus, hdd]
    simp [hlt]
  · intro t now now2
    unfold CrmTask.is_overdue CrmTask.mark_completed
    simp

/-- Claim C7 witness: a concrete pending task due at instant 5 is overdue at
instant 10, and is no longer overdue after being completed. -/
theorem task_overdue_pending_and_completed_witness :
    CrmTask.is_overdue exTask 10 = true ∧
    CrmTask.is_overdue (CrmTask.mark_completed exTask 10) 20 = false :=
  ⟨task_overdue_pending_and_completed.1 exTask 10 5 rfl (by decide) rfl,
   task_overdue_pending_and_completed.2 exTask 10 20⟩

/-- Claim C8 counterexample: two leads that differ in the stored `city`
field produce identical `to_dict` output, so `to_dict` is not a lossless
projection of the stored fields. -/
theorem lead_to_dict_not_lossless_counterexample :
    exLeadCityA.city ≠ exLeadCityB.city ∧ exLeadCityA ≠ exLeadCityB ∧
    exLeadCityA.to_dict = exLeadCityB.to_dict := by
  refine ⟨by decide, ?_, rfl⟩
  intro h
  have hc : exLeadCityA.city = exLeadCityB.city := by rw [h]
  exact absurd hc (by decide)

/-- Claim C8 (amended): `to_dict` is a flat projection — every key of the
returned dict equals the corresponding stored field or derived value
(full_name, full_address, parsed tags, weighted_value, is_overdue,
priority_color) — but it is not lossless: some stored fields are omitted
from the dict (for Lead: requirements, notes, converted_to_contact_id,
converted_at, city, state, country, last_contacted; for Deal: products,
competitors, notes; for Contact: notes, and the five address parts are
collapsed into one joined string). -/
theorem to_dict_flat_projection (l : Lead) (c : Contact) (d : Deal)
    (t : CrmTask) (today : Nat) :
    (l.to_dict.id = l.id ∧ l.to_dict.first_name = l.first_name ∧
     l.to_dict.last_name = l.last_name ∧ l.to_dict.full_name = l.full_name ∧
     l.to_dict.email = l.email ∧ l.to_dict.status = l.status ∧
     l.to_dict.score = l.score ∧ l.to_dict.temperature = l.temperature ∧
     l.to_dict.owner_id = l.owner_id ∧
     l.to_dict.created_at = isoformat l.created_at) ∧
    ((d.to_dict today).title = d.title ∧ (d.to_dict today).value = d.value ∧
     (d.to_dict today).stage = d.stage ∧
     (d.to_dict today).probability = d.probability ∧
     (d.to_dict today).status = d.status ∧
     (d.to_dict today).weighted_value = d.get_weighted_value ∧
     (d.to_dict today).is_overdue = d.is_overdue today) ∧
    (c.to_dict.first_name = c.first_name ∧ c.to_dict.email = c.email ∧
     c.to_dict.full_name = c.full_name ∧ c.to_dict.address = c.full_address ∧
     c.to_dict.tags = c.get_tags_list) ∧
    ((t.to_dict today).title = t.title ∧ (t.to_dict today).status = t.status ∧
     (t.to_dict today).is_overdue = t.is_overdue today ∧
     (t.to_dict today).priority_color = t.get_priority_color) :=
  ⟨⟨rfl, rfl, rfl, rfl, rfl, rfl, rfl, rfl, rfl, rfl⟩,
   ⟨rfl, rfl, rfl, rfl, rfl, rfl, rfl⟩,
   ⟨rfl, rfl, rfl, rfl, rfl⟩,
   ⟨rfl, rfl, rfl, rfl⟩⟩

/-- Claim C9: with a null date, the three overdue checks return false — a
task with no due date whatever its status, a deal with no expected close
date whatever its status, and an uncompleted activity with no scheduled
time. -/
theorem is_overdue_false_on_null_date :
    (∀ (t : CrmTask) (now : Nat), t.due_date = none →
      t.is_overdue now = false) ∧
    (∀ (d : Deal) (today : Nat), d.expected_close_date = none →
      d.is_overdue today = false) ∧
    (∀ (a : Activity) (now : Nat), a.scheduled_at = none →
      a.is_completed = false → a.is_overdue now = false) := by
  refine ⟨?_, ?_, ?_⟩
  · intro t now h
    unfold CrmTask.is_overdue
    rw [h]
    split_ifs <;> rfl
  · intro d today h
    unfold Deal.is_overdue
    rw [h]
  · intro a now h hc
    unfold Activity.is_overdue
    rw [h, hc]
    rfl

/-- Claim C9 witness: the three checks on concrete null-date entities. -/
theorem is_overdue_false_on_null_date_witness :
    CrmTask.is_overdue exTaskNoDue 100 = false ∧
    Deal.is_overdue exDeal 100 = false ∧
    Activity.is_overdue exActivity 100 = false :=
  ⟨is_overdue_false_on_null_date.1 exTaskNoDue 100 rfl,
   is_overdue_false_on_null_date.2.1 exDeal 100 rfl,
   is_overdue_false_on_null_date.2.2 exActivity 100 rfl rfl⟩

/-- Claim C10: `move_to_stage` stores the argument in the stage field for
every string, including names outside the six documented stages — and for an
unknown name the call is not a full no-op: the stage changes even though the
probability is preserved. -/
theorem move_to_stage_always_sets_stage (d : Deal) (s : String) (today : Nat) :
    (d.move_to_stage s today).stage = s ∧
    (exDeal.move_to_stage "discovery" 7).stage = "discovery" ∧
    (exDeal.move_to_stage "discovery" 7).probability = exDeal.probability ∧
    exDeal.move_to_stage "discovery" 7 ≠ exDeal := by
  refine ⟨move_stage_eq d s today, rfl, rfl, ?_⟩
  intro h
  have hs : (exDeal.move_to_stage "discovery" 7).stage = exDeal.stage := by
    rw [h]
  rw [move_stage_eq] at hs
  exact absurd hs (by decide)
